import Mathlib

/-!
Verification of the token validator in src/lib/tokens.ts.

The file shallowly embeds validateToken and its helper importJwkAndVerify.
External collaborators (the decode and verify functions of the jose library,
JSON.parse, the Key Store lookup, the JWK import routine and the noble
ed25519 raw verifier) are modelled as an environment of oracle functions
that either return a value or throw; JavaScript exceptions are modelled
with Except Error.  The embedding additionally records an event trace
(console.log lines and the verification calls made, with their arguments)
so that claims about which verification path ran, and with which inputs,
are observable.
-/

namespace Jwtis

/-- A JavaScript exception as observed by the code: only its message is read,
plus whether it is an instance of errors.JWTExpired. -/
structure Error where
  message : String
  isJWTExpired : Bool
deriving DecidableEq, Repr

/-- Decoded protected header.  The code reads only alg and kid; both are
optional on a decoded header.  The extra field stands for the remaining JSON
members, never read by the code. -/
structure Header where
  alg : Option String
  kid : Option String
  extra : List (String × String)
deriving DecidableEq, Repr

/-- Decoded payload.  The code reads only exp (a JSON number, seconds since
epoch); extra stands for the remaining claims, never read by the code. -/
structure Payload where
  exp : Option Int
  extra : List (String × String)
deriving DecidableEq, Repr

/-- The JWTVerifyResult shape built at lines 20-23 of tokens.ts. -/
structure JWTVerifyResult where
  protectedHeader : Header
  payload : Payload
deriving DecidableEq, Repr

/-- The result record of validateToken; error none models an absent
(undefined) error field. -/
structure ValidationResult where
  verified : Bool
  decoded : JWTVerifyResult
  expired : Bool
  error : Option String
deriving DecidableEq, Repr

/-- One enumerable own property of the object returned by the JWK import:
either a Uint8Array of bytes or some other value. -/
inductive KeyVal where
  | bytes (bs : List Nat)
  | other (tag : Nat)
deriving DecidableEq, Repr

/-- The key object returned by the JWK import, as far as the code observes
it: the list Object.values of it, in order. -/
structure KeyLike where
  values : List KeyVal
deriving DecidableEq, Repr

/-- A record returned by storage.keys.getKeyById; the code reads only its
key field (a JSON string). -/
structure KeyRecord where
  key : String
deriving DecidableEq, Repr

/-- A parsed JSON Web Key.  The code reads only alg; rest stands for the
remaining key material, passed opaquely to the JWK import. -/
structure JWK where
  alg : Option String
  rest : String
deriving DecidableEq, Repr

/-- Key argument passed to the jwtVerify oracle: either the encoded secret
bytes (symmetric path) or the imported key object (generic path). -/
inductive VKey where
  | secretBytes (bs : List Nat)
  | keyLike (k : KeyLike)
deriving DecidableEq, Repr

/-- Observable events: console.log lines and the verification calls made,
with their arguments. -/
inductive Event where
  | jwtVerifyCall (jwt : String) (key : VKey)
  | edVerifyCall (sig msg pub : String)
  | log (msg : String)
deriving DecidableEq, Repr

/-- The environment of external collaborators.  Each oracle returns a value
of type Except Error so that a throw or promise rejection is expressible.
The nowMillis field is the clock read by new Date() (milliseconds since
epoch). -/
structure Env where
  decodeProtectedHeader : String → Except Error Header
  decodeJwt : String → Except Error Payload
  nowMillis : Int
  jwtVerify : String → VKey → Except Error Unit
  getKeyById : String → Except Error (Option KeyRecord)
  jsonParseJWK : String → Except Error JWK
  importJWK : JWK → Except Error KeyLike
  edVerify : String → String → String → Except Error Bool

/-! ### String helpers (JavaScript string methods used by the code) -/

/-- ASCII lowering of one character (the fragment of the JavaScript
toLowerCase method relevant to algorithm identifiers). -/
def jsCharToLower (c : Char) : Char :=
  if 65 ≤ c.toNat ∧ c.toNat ≤ 90 then Char.ofNat (c.toNat + 32) else c

/-- The JavaScript toLowerCase method on ASCII strings. -/
def jsToLower (s : String) : String :=
  String.mk (s.data.map jsCharToLower)

/-- The JavaScript startsWith method. -/
def jsStartsWith (s p : String) : Bool :=
  p.data.isPrefixOf s.data

/-- Splits a character list at every dot; every string has at least one
group, and consecutive dots give empty groups, as the JavaScript split
method does. -/
def splitDotAux : List Char → List (List Char)
  | [] => [[]]
  | c :: cs =>
    match splitDotAux cs with
    | [] => [[]]
    | g :: gs => if c = '.' then [] :: g :: gs else (c :: g) :: gs

/-- The JavaScript split on a dot, as used at line 104 of tokens.ts. -/
def jsSplitDot (s : String) : List String :=
  (splitDotAux s.data).map String.mk

/-! ### Byte- and string-level helpers used by the EdDSA branch -/

/-- UTF-8 encoding of a single code point (model of the bytes produced by
Buffer.from on a string). -/
def utf8EncodeCharNat (n : Nat) : List Nat :=
  if n < 128 then [n]
  else if n < 2048 then [192 + n / 64, 128 + n % 64]
  else if n < 65536 then [224 + n / 4096, 128 + n / 64 % 64, 128 + n % 64]
  else [240 + n / 262144, 128 + n / 4096 % 64, 128 + n / 64 % 64, 128 + n % 64]

/-- The UTF-8 bytes of a string, as natural numbers. -/
def utf8Bytes (s : String) : List Nat :=
  s.data.flatMap (fun c => utf8EncodeCharNat c.toNat)

/-- Lowercase hexadecimal digit. -/
def hexDigit (n : Nat) : Char :=
  if n < 10 then Char.ofNat (48 + n) else Char.ofNat (87 + n)

/-- Two lowercase hex digits of a byte, as produced both by Buffer.toString
with the hex encoding and by the noble bytesToHex helper. -/
def byteToHex (n : Nat) : String :=
  String.mk [hexDigit (n / 16 % 16), hexDigit (n % 16)]

/-- Lowercase hex string of a byte list. -/
def bytesToHex (bs : List Nat) : String :=
  String.join (bs.map byteToHex)

/-- Value of one base64 character.  The Node base64 decoder accepts both the
standard and the url-safe alphabet and skips characters outside it
(including padding). -/
def base64CharVal (c : Char) : Option Nat :=
  if 65 ≤ c.toNat ∧ c.toNat ≤ 90 then some (c.toNat - 65)
  else if 97 ≤ c.toNat ∧ c.toNat ≤ 122 then some (c.toNat - 97 + 26)
  else if 48 ≤ c.toNat ∧ c.toNat ≤ 57 then some (c.toNat - 48 + 52)
  else if c = '+' ∨ c = '-' then some 62
  else if c = '/' ∨ c = '_' then some 63
  else none

/-- Packs a stream of 6-bit values into bytes, most significant bits first;
incomplete trailing bits are dropped, as Node does. -/
def base64Pack : List Nat → Nat → Nat → List Nat
  | [], _, _ => []
  | v :: vs, acc, bits =>
    let acc2 := acc * 64 + v
    let bits2 := bits + 6
    if 8 ≤ bits2 then
      acc2 / 2 ^ (bits2 - 8) % 256 :: base64Pack vs (acc2 % 2 ^ (bits2 - 8)) (bits2 - 8)
    else
      base64Pack vs acc2 bits2

/-- Model of Buffer.from with the base64 encoding: forgiving base64
decoding accepting both alphabets. -/
def nodeBase64Decode (s : String) : List Nat :=
  base64Pack (s.data.filterMap base64CharVal) 0 0

/-- Model of TextEncoder.encode applied to the secret: with the secret
undefined the default parameter of encode makes it encode the empty
string. -/
def textEncoderEncode (secret : Option String) : List Nat :=
  utf8Bytes (secret.getD "")

/-- JavaScript template-literal rendering of a possibly-undefined string:
an undefined value prints as the text undefined. -/
def jsTemplate (o : Option String) : String :=
  o.getD "undefined"

/-- Model of line 109 of tokens.ts: Object.values of the imported key
object, filtered to Uint8Array instances, first element. -/
def firstUint8Array (k : KeyLike) : Option (List Nat) :=
  (k.values.filterMap fun v =>
    match v with
    | .bytes bs => some bs
    | .other _ => none).head?

/-- The dispatch test at line 103 of tokens.ts: the lowercased alg field of
the stored JWK compared to the eddsa literal, with optional chaining (an
absent alg compares unequal). -/
def jwkAlgIsEdDSA (k : JWK) : Bool :=
  match k.alg with
  | some a => jsToLower a == "eddsa"
  | none => false

/-- JavaScript truthiness of the optional kid string at line 58 of
tokens.ts: undefined and the empty string are falsy. -/
def kidTruthy : Option String → Bool
  | none => false
  | some k => k ≠ ""

/-! ### Modelled runtime exceptions -/

/-- Modelled from the JavaScript runtime: the TypeError thrown at line 31
of tokens.ts when the decoded header has no alg and toLowerCase is called
on undefined. -/
def toLowerCaseOfUndefined : Error :=
  ⟨"Cannot read properties of undefined (reading toLowerCase)", false⟩

/-- Modelled from the Node runtime: the TypeError thrown by Buffer.from
applied to undefined when the token has no third segment. -/
def bufferFromUndefined : Error :=
  ⟨"The first argument must be of type string or an instance of Buffer, ArrayBuffer, or Array or an Array-like Object. Received undefined", false⟩

/-- Modelled from noble ed25519: bytesToHex throws when the imported key
object exposes no Uint8Array value. -/
def uint8ArrayExpected : Error :=
  ⟨"Uint8Array expected", false⟩

/-- The fixed literal error thrown at line 114 of tokens.ts when the raw
EdDSA check returns false. -/
def eddsaVerificationFailed : Error :=
  ⟨"eddsa token verification failed", false⟩

/-! ### The embedded program -/

/-- Lines 25-28 of tokens.ts: expired starts false and is only assigned
when payload.exp is truthy, so an exp equal to 0 is skipped; the comparison
is between Date objects, in milliseconds. -/
def computeExpired (env : Env) (pl : Payload) : Bool :=
  match pl.exp with
  | none => false
  | some e => if e = 0 then false else decide (env.nowMillis > e * 1000)

/-- Lines 101-128 of tokens.ts.  In the non-EdDSA branch, jwtVerify is an
async function, so the call itself never throws synchronously; the promise
it returns is passed through the return statement, which is why the
try/catch at lines 119-126 cannot fire and the rejection of the promise
propagates to the await in validateToken (line 77). -/
def importJwkAndVerify (env : Env) (jwt : String) (key : JWK) :
    Except Error Unit × List Event :=
  match env.importJWK key with
  | .error e => (.error e, [])
  | .ok keyLike =>
    if jwkAlgIsEdDSA key then
      let parts := jsSplitDot jwt
      let message := bytesToHex (utf8Bytes
        (jsTemplate parts[0]? ++ "." ++ jsTemplate parts[1]?))
      match parts[2]? with
      | none => (.error bufferFromUndefined, [])
      | some sigSeg =>
        let signature := bytesToHex (nodeBase64Decode sigSeg)
        match firstUint8Array keyLike with
        | none => (.error uint8ArrayExpected, [])
        | some pubKeyBytes =>
          let pubKey := bytesToHex pubKeyBytes
          match env.edVerify signature message pubKey with
          | .error e => (.error e, [.edVerifyCall signature message pubKey])
          | .ok isValid =>
            if isValid then (.ok (), [.edVerifyCall signature message pubKey])
            else (.error eddsaVerificationFailed,
                  [.edVerifyCall signature message pubKey])
    else
      (env.jwtVerify jwt (.keyLike keyLike),
       [.jwtVerifyCall jwt (.keyLike keyLike)])

/-- The body of validateToken inside the outer try (lines 15-89 of
tokens.ts): an error value models an exception reaching the outer catch. -/
def validateTokenBody (env : Env) (jwt : String) (secret : Option String) :
    Except Error ValidationResult × List Event :=
  match env.decodeProtectedHeader jwt with
  | .error e => (.error e, [])
  | .ok decodedHeader =>
  match env.decodeJwt jwt with
  | .error e => (.error e, [])
  | .ok decodedPayload =>
  let decodedResponse : JWTVerifyResult := ⟨decodedHeader, decodedPayload⟩
  let expired := computeExpired env ⟨decodedPayload.exp, decodedPayload.extra⟩
  match decodedHeader.alg with
  | none => (.error toLowerCaseOfUndefined, [])
  | some alg =>
  if jsStartsWith (jsToLower alg) "hs" then
    let ev : Event := .jwtVerifyCall jwt (.secretBytes (textEncoderEncode secret))
    match env.jwtVerify jwt (.secretBytes (textEncoderEncode secret)) with
    | .ok _ => (.ok ⟨true, decodedResponse, expired, none⟩, [ev])
    | .error err =>
      if err.isJWTExpired then
        (.ok ⟨true, decodedResponse, expired, none⟩, [ev])
      else
        (.ok ⟨false, decodedResponse, expired, some err.message⟩, [ev])
  else
    match (if kidTruthy decodedHeader.kid
           then env.getKeyById (decodedHeader.kid.getD "")
           else .ok none) with
    | .error e => (.error e, [])
    | .ok keyOpt =>
    match keyOpt with
    | none =>
      (.ok ⟨false, decodedResponse, expired, none⟩, [.log "No key found"])
    | some keyRec =>
      match env.jsonParseJWK keyRec.key with
      | .error e => (.error e, [])
      | .ok jwk =>
        match importJwkAndVerify env jwt jwk with
        | (.ok _, evs) => (.ok ⟨true, decodedResponse, expired, none⟩, evs)
        | (.error err, evs) =>
          (.ok ⟨false, decodedResponse, expired, some err.message⟩, evs)

/-- The empty decoded content built at line 93 of tokens.ts. -/
def emptyDecoded : JWTVerifyResult :=
  ⟨⟨none, none, []⟩, ⟨none, []⟩⟩

/-- The function validateToken of tokens.ts (lines 10-98): the outer
try/catch turns any escaped exception into a result with empty decoded
content and the message of the exception. -/
def validateToken (env : Env) (jwt : String) (secret : Option String) :
    ValidationResult × List Event :=
  match validateTokenBody env jwt secret with
  | (.ok r, evs) => (r, evs)
  | (.error e, evs) => (⟨false, emptyDecoded, false, some e.message⟩, evs)

/-! ### Concrete environments used by counterexamples and witnesses -/

/-- Environment where the stored key record holds text that is not valid
JSON, so JSON.parse at line 73 of tokens.ts throws. -/
def envC2 : Env :=
  { decodeProtectedHeader := fun _ => .ok ⟨some "RS256", some "kid1", []⟩
    decodeJwt := fun _ => .ok ⟨some 99, []⟩
    nowMillis := 1700000000000
    jwtVerify := fun _ _ => .ok ()
    getKeyById := fun _ => .ok (some ⟨"not a json web key"⟩)
    jsonParseJWK := fun _ => .error ⟨"Unexpected token o in JSON at position 1", false⟩
    importJWK := fun _ => .ok ⟨[]⟩
    edVerify := fun _ _ _ => .ok true }

/-- Environment where the header declares EdDSA but the stored JWK carries
alg RS256, so the generic verification routine runs. -/
def envC5 : Env :=
  { decodeProtectedHeader := fun _ => .ok ⟨some "EdDSA", some "kid1", []⟩
    decodeJwt := fun _ => .ok ⟨none, []⟩
    nowMillis := 0
    jwtVerify := fun _ _ => .ok ()
    getKeyById := fun _ => .ok (some ⟨"stored-jwk-json"⟩)
    jsonParseJWK := fun _ => .ok ⟨some "RS256", "rsa-key-material"⟩
    importJWK := fun _ => .ok ⟨[.bytes [1, 2]]⟩
    edVerify := fun _ _ _ => .ok true }

/-- Environment whose decoded payload carries exp equal to 0 while the
clock is far past the epoch. -/
def envC7 : Env :=
  { decodeProtectedHeader := fun _ => .ok ⟨some "HS256", none, []⟩
    decodeJwt := fun _ => .ok ⟨some 0, []⟩
    nowMillis := 1700000000000
    jwtVerify := fun _ _ => .ok ()
    getKeyById := fun _ => .ok none
    jsonParseJWK := fun _ => .error ⟨"unreached", false⟩
    importJWK := fun _ => .ok ⟨[]⟩
    edVerify := fun _ _ _ => .ok true }

/-- Environment with an expired payload where the Key Store lookup throws,
so the outer handler discards the computed expiry. -/
def envC7b : Env :=
  { envC7 with
    decodeProtectedHeader := fun _ => .ok ⟨some "RS256", some "kid1", []⟩
    decodeJwt := fun _ => .ok ⟨some 99, []⟩
    getKeyById := fun _ => .error ⟨"db connection lost", false⟩ }

/-- Environment for the successful symmetric path with an expired payload. -/
def envSym : Env :=
  { decodeProtectedHeader := fun _ => .ok ⟨some "HS256", none, []⟩
    decodeJwt := fun _ => .ok ⟨some 10, []⟩
    nowMillis := 20000
    jwtVerify := fun _ _ => .ok ()
    getKeyById := fun _ => .ok none
    jsonParseJWK := fun _ => .error ⟨"unreached", false⟩
    importJWK := fun _ => .ok ⟨[]⟩
    edVerify := fun _ _ _ => .ok true }

/-- Environment where symmetric verification rejects with a library-level
expiry error. -/
def envSymExpired : Env :=
  { envSym with
    jwtVerify := fun _ _ => .error ⟨"exp claim timestamp check failed", true⟩ }

/-- Environment where the generic asymmetric verification rejects with a
library-level expiry error. -/
def envAsymExpired : Env :=
  { envSym with
    decodeProtectedHeader := fun _ => .ok ⟨some "RS256", some "kid1", []⟩
    getKeyById := fun _ => .ok (some ⟨"stored-jwk-json"⟩)
    jsonParseJWK := fun _ => .ok ⟨some "RS256", "rsa-key-material"⟩
    importJWK := fun _ => .ok ⟨[.other 0]⟩
    jwtVerify := fun _ _ => .error ⟨"exp claim timestamp check failed", true⟩ }

/-- Environment where the generic asymmetric verification rejects with a
signature failure. -/
def envAsymFail : Env :=
  { envAsymExpired with
    jwtVerify := fun _ _ => .error ⟨"signature verification failed", false⟩ }

/-- Environment where the header kid is not resolved by the Key Store. -/
def envNoKey : Env :=
  { envSym with
    decodeProtectedHeader := fun _ => .ok ⟨some "RS256", some "missing", []⟩ }

/-- Environment for the EdDSA path with a passing raw check. -/
def envEd : Env :=
  { decodeProtectedHeader := fun _ => .ok ⟨some "EdDSA", some "kid1", []⟩
    decodeJwt := fun _ => .ok ⟨none, []⟩
    nowMillis := 0
    jwtVerify := fun _ _ => .ok ()
    getKeyById := fun _ => .ok (some ⟨"stored-jwk-json"⟩)
    jsonParseJWK := fun _ => .ok ⟨some "EdDSA", "okp-key-material"⟩
    importJWK := fun _ => .ok ⟨[.other 0, .bytes [1, 255]]⟩
    edVerify := fun _ _ _ => .ok true }

/-- Environment for the EdDSA path with a failing raw check. -/
def envEdFail : Env := { envEd with edVerify := fun _ _ _ => .ok false }

/-! ### Helper lemmas -/

/-- Every event trace of importJwkAndVerify is empty, a single generic
jwtVerify call on the imported key (exactly when the stored JWK alg is not
EdDSA), or a single raw EdDSA check. -/
theorem importJwkAndVerify_events_shape (env : Env) (jwt : String) (key : JWK) :
    (importJwkAndVerify env jwt key).2 = [] ∨
    (∃ kl, env.importJWK key = .ok kl ∧ jwkAlgIsEdDSA key = false ∧
      (importJwkAndVerify env jwt key).2 = [Event.jwtVerifyCall jwt (.keyLike kl)]) ∨
    (∃ s m p, (importJwkAndVerify env jwt key).2 = [Event.edVerifyCall s m p]) := by
  unfold importJwkAndVerify
  rcases hI : env.importJWK key with e | kl
  · simp
  · simp only []
    by_cases hE : jwkAlgIsEdDSA key
    · simp only [hE, if_true]
      rcases h2 : (jsSplitDot jwt)[2]? with _ | sseg
      · simp
      · simp only []
        rcases hF : firstUint8Array kl with _ | pub
        · simp
        · simp only []
          rcases hV : env.edVerify (bytesToHex (nodeBase64Decode sseg))
              (bytesToHex (utf8Bytes (jsTemplate (jsSplitDot jwt)[0]? ++ "." ++ jsTemplate (jsSplitDot jwt)[1]?)))
              (bytesToHex pub) with e | b
          · right; right
            refine ⟨bytesToHex (nodeBase64Decode sseg),
              bytesToHex (utf8Bytes (jsTemplate (jsSplitDot jwt)[0]? ++ "." ++
                jsTemplate (jsSplitDot jwt)[1]?)), bytesToHex pub, ?_⟩
            simp [hV]
          · right; right
            refine ⟨bytesToHex (nodeBase64Decode sseg),
              bytesToHex (utf8Bytes (jsTemplate (jsSplitDot jwt)[0]? ++ "." ++
                jsTemplate (jsSplitDot jwt)[1]?)), bytesToHex pub, ?_⟩
            simp only [hV]
            by_cases hb : b <;> simp [hb]
    · simp only [hE, if_false]
      right; left
      exact ⟨kl, rfl, by trivial, by simp⟩

/-- The helper importJwkAndVerify never logs. -/
theorem importJwkAndVerify_no_log (env : Env) (jwt : String) (key : JWK) (m : String) :
    Event.log m ∉ (importJwkAndVerify env jwt key).2 := by
  rcases importJwkAndVerify_events_shape env jwt key with h | ⟨kl, _, _, h⟩ | ⟨s, m2, p, h⟩ <;>
    simp [h]

/-- Master case analysis of the validateToken body: either an exception
escapes to the outer boundary with an empty trace, or the body returns a
result whose decoded content is the decoded header and payload, whose
header carries an alg, whose expired flag is the computed one, and whose
error field is absent exactly for a verified result or the no-key branch. -/
theorem validateTokenBody_spec (env : Env) (jwt : String) (secret : Option String) :
    (∃ e, validateTokenBody env jwt secret = (.error e, [])) ∨
    (∃ r evs hdr pl a, validateTokenBody env jwt secret = (.ok r, evs) ∧
      env.decodeProtectedHeader jwt = .ok hdr ∧
      env.decodeJwt jwt = .ok pl ∧
      hdr.alg = some a ∧
      r.decoded = ⟨hdr, pl⟩ ∧
      r.expired = computeExpired env pl ∧
      (r.error = none ↔ (r.verified = true ∨ Event.log "No key found" ∈ evs))) := by
  rcases hH : env.decodeProtectedHeader jwt with e | hdr
  · exact Or.inl ⟨e, by simp [validateTokenBody, hH]⟩
  rcases hP : env.decodeJwt jwt with e | pl
  · exact Or.inl ⟨e, by simp [validateTokenBody, hH, hP]⟩
  rcases hA : hdr.alg with _ | a
  · exact Or.inl ⟨toLowerCaseOfUndefined, by simp [validateTokenBody, hH, hP, hA]⟩
  by_cases hhs : jsStartsWith (jsToLower a) "hs" = true
  · rcases hV : env.jwtVerify jwt (.secretBytes (textEncoderEncode secret)) with err | u
    · by_cases hexp : err.isJWTExpired = true
      · exact Or.inr ⟨⟨true, ⟨hdr, pl⟩, computeExpired env pl, none⟩,
          [.jwtVerifyCall jwt (.secretBytes (textEncoderEncode secret))], hdr, pl, a,
          by simp [validateTokenBody, hH, hP, hA, hhs, hV, hexp], rfl, rfl, hA, rfl, rfl, by simp⟩
      · exact Or.inr ⟨⟨false, ⟨hdr, pl⟩, computeExpired env pl, some err.message⟩,
          [.jwtVerifyCall jwt (.secretBytes (textEncoderEncode secret))], hdr, pl, a,
          by simp [validateTokenBody, hH, hP, hA, hhs, hV, hexp], rfl, rfl, hA, rfl, rfl, by simp⟩
    · exact Or.inr ⟨⟨true, ⟨hdr, pl⟩, computeExpired env pl, none⟩,
        [.jwtVerifyCall jwt (.secretBytes (textEncoderEncode secret))], hdr, pl, a,
        by simp [validateTokenBody, hH, hP, hA, hhs, hV], rfl, rfl, hA, rfl, rfl, by simp⟩
  · rcases hK : (if kidTruthy hdr.kid then env.getKeyById (hdr.kid.getD "") else .ok none)
        with e | keyOpt
    · exact Or.inl ⟨e, by simp [validateTokenBody, hH, hP, hA, hhs, hK]⟩
    rcases keyOpt with _ | keyRec
    · exact Or.inr ⟨⟨false, ⟨hdr, pl⟩, computeExpired env pl, none⟩, [.log "No key found"],
        hdr, pl, a,
        by simp [validateTokenBody, hH, hP, hA, hhs, hK], rfl, rfl, hA, rfl, rfl, by simp⟩
    rcases hJ : env.jsonParseJWK keyRec.key with e | jwk
    · exact Or.inl ⟨e, by simp [validateTokenBody, hH, hP, hA, hhs, hK, hJ]⟩
    rcases hIV : importJwkAndVerify env jwt jwk with ⟨res2, evs2⟩
    have hnl : Event.log "No key found" ∉ evs2 := by
      have hx := importJwkAndVerify_no_log env jwt jwk "No key found"
      rw [hIV] at hx
      exact hx
    rcases res2 with err | u
    · exact Or.inr ⟨⟨false, ⟨hdr, pl⟩, computeExpired env pl, some err.message⟩, evs2,
        hdr, pl, a,
        by simp [validateTokenBody, hH, hP, hA, hhs, hK, hJ, hIV], rfl, rfl, hA, rfl, rfl,
        by simp [hnl]⟩
    · exact Or.inr ⟨⟨true, ⟨hdr, pl⟩, computeExpired env pl, none⟩, evs2, hdr, pl, a,
        by simp [validateTokenBody, hH, hP, hA, hhs, hK, hJ, hIV], rfl, rfl, hA, rfl, rfl,
        by simp⟩

/-- The computed expiry flag is true exactly for a present, nonzero exp
whose second-scaled value lies strictly before the clock. -/
theorem computeExpired_eq_true_iff (env : Env) (pl : Payload) :
    computeExpired env pl = true ↔
      ∃ e, pl.exp = some e ∧ e ≠ 0 ∧ env.nowMillis > e * 1000 := by
  unfold computeExpired
  rcases hE : pl.exp with _ | e
  · simp
  · by_cases h0 : e = 0 <;> simp [h0]

/-! ### Claim theorems -/

/-- C1: for every input token string, optional secret and Key Store
behaviour (the environment quantifies over all collaborator behaviour,
including a lookup that throws), validateToken terminates in a
ValidationResult by construction, and every exception escaping the body is
turned by the outer boundary into verified false, expired false, empty
decoded header and payload, and the message of the exception in the error
field. -/
theorem validateToken_never_throws (env : Env) (jwt : String) (secret : Option String) :
    (∃ r, (validateTokenBody env jwt secret).1 = .ok r ∧
      (validateToken env jwt secret).1 = r) ∨
    (∃ e, (validateTokenBody env jwt secret).1 = .error e ∧
      (validateToken env jwt secret).1 =
        ⟨false, emptyDecoded, false, some e.message⟩) := by
  unfold validateToken
  rcases hB : validateTokenBody env jwt secret with ⟨res, evs⟩
  rcases res with e | r
  · exact Or.inr ⟨e, rfl, rfl⟩
  · exact Or.inl ⟨r, rfl, rfl⟩

/-- C2 counterexample: header and payload decode successfully, yet the
result carries empty decoded content, because the stored key material fails
to parse (JSON.parse at line 73 of tokens.ts sits outside the inner try, so
its exception reaches the outer boundary).  This refutes the claim that
decode failure is the only path yielding empty decoded. -/
theorem decoded_emptied_by_key_parse_failure :
    envC2.decodeProtectedHeader "h.p.s" = .ok ⟨some "RS256", some "kid1", []⟩ ∧
    envC2.decodeJwt "h.p.s" = .ok ⟨some 99, []⟩ ∧
    (validateToken envC2 "h.p.s" none).1 =
      ⟨false, emptyDecoded, false,
        some "Unexpected token o in JSON at position 1"⟩ := by
  exact ⟨rfl, rfl, by decide⟩

/-- C2 amended: the decoded field of the result is empty exactly when an
exception reaches the outer boundary; besides header/payload decode
failure this includes a header without alg, a throwing Key Store lookup,
and a stored key that fails to parse.  In every non-throwing outcome the
decoded field is populated. -/
theorem decoded_empty_iff_outer_exception (env : Env) (jwt : String)
    (secret : Option String) :
    (validateToken env jwt secret).1.decoded = emptyDecoded ↔
      ∃ e, (validateTokenBody env jwt secret).1 = .error e := by
  rcases validateTokenBody_spec env jwt secret with ⟨e, hB⟩ |
    ⟨r, evs, hdr, pl, a, hB, hH, hP, hA, hdec, hexp, herr⟩
  · constructor
    · intro _
      exact ⟨e, by rw [hB]⟩
    · intro _
      unfold validateToken
      rw [hB]
  · constructor
    · intro hcon
      exfalso
      unfold validateToken at hcon
      rw [hB] at hcon
      simp only [] at hcon
      rw [hdec] at hcon
      have halg := congrArg (fun d => d.protectedHeader.alg) hcon
      simp only [emptyDecoded] at halg
      rw [hA] at halg
      exact Option.noConfusion halg
    · rintro ⟨e, he⟩
      rw [hB] at he
      exact absurd he (by simp)

/-- C3: expiry during verification is handled asymmetrically.  On the
symmetric path a library-level expiry rejection still yields verified true;
on the generic asymmetric path the same rejection propagates (through the
un-awaited promise) to the catch of the caller and yields verified false
with the library message in the error field. -/
theorem expiry_asymmetry (env : Env) (jwt : String) (secret : Option String)
    (hdr : Header) (pl : Payload) (a : String) (err : Error)
    (hH : env.decodeProtectedHeader jwt = .ok hdr)
    (hP : env.decodeJwt jwt = .ok pl)
    (hA : hdr.alg = some a)
    (hexp : err.isJWTExpired = true) :
    (jsStartsWith (jsToLower a) "hs" = true →
      env.jwtVerify jwt (.secretBytes (textEncoderEncode secret)) = .error err →
      (validateToken env jwt secret).1.verified = true) ∧
    (∀ kid rec jwk kl,
      jsStartsWith (jsToLower a) "hs" = false →
      hdr.kid = some kid → kid ≠ "" →
      env.getKeyById kid = .ok (some rec) →
      env.jsonParseJWK rec.key = .ok jwk →
      jwkAlgIsEdDSA jwk = false →
      env.importJWK jwk = .ok kl →
      env.jwtVerify jwt (.keyLike kl) = .error err →
      (validateToken env jwt secret).1.verified = false ∧
      (validateToken env jwt secret).1.error = some err.message) := by
  constructor
  · intro hhs hV
    unfold validateToken validateTokenBody
    simp [hH, hP, hA, hhs, hV, hexp]
  · intro kid rec jwk kl hhs hkid hk0 hget hJ heddsa himp hV
    unfold validateToken validateTokenBody importJwkAndVerify
    simp [kidTruthy, hH, hP, hA, hhs, hkid, hk0, hget, hJ, heddsa, himp, hV]

/-- C3 witness: concrete expiry rejections on both paths, soft success on
the symmetric one and propagated failure on the generic asymmetric one. -/
theorem expiry_asymmetry_witness :
    (validateToken envSymExpired "h.p.s" (some "sec")).1.verified = true ∧
    ((validateToken envAsymExpired "h.p.s" none).1.verified = false ∧
      (validateToken envAsymExpired "h.p.s" none).1.error =
        some "exp claim timestamp check failed") := by
  refine ⟨(expiry_asymmetry envSymExpired "h.p.s" (some "sec") ⟨some "HS256", none, []⟩
    ⟨some 10, []⟩ "HS256" ⟨"exp claim timestamp check failed", true⟩
    rfl rfl rfl rfl).1 (by decide) rfl, ?_⟩
  exact (expiry_asymmetry envAsymExpired "h.p.s" none ⟨some "RS256", some "kid1", []⟩
    ⟨some 10, []⟩ "RS256" ⟨"exp claim timestamp check failed", true⟩ rfl rfl rfl rfl).2
    "kid1" ⟨"stored-jwk-json"⟩ ⟨some "RS256", "rsa-key-material"⟩ ⟨[.other 0]⟩
    (by decide) rfl (by decide) rfl rfl (by decide) rfl rfl

/-- C4: on the EdDSA path the raw check runs over the hex encoding of the
UTF-8 bytes of the text formed by the header segment, a dot and the payload
segment, the hex encoding of the base64url-decoded signature segment, and
the hex encoding of the raw public-key bytes extracted from the imported
key; a failing check yields verified false with the fixed literal message,
and a passing check yields verified true. -/
theorem eddsa_raw_verify (env : Env) (jwt : String) (secret : Option String)
    (hdr : Header) (pl : Payload) (a : String) (kid : String) (rec : KeyRecord)
    (jwk : JWK) (kl : KeyLike) (hseg pseg sseg : String) (pub : List Nat)
    (hH : env.decodeProtectedHeader jwt = .ok hdr)
    (hP : env.decodeJwt jwt = .ok pl)
    (hA : hdr.alg = some a)
    (hhs : jsStartsWith (jsToLower a) "hs" = false)
    (hkid : hdr.kid = some kid) (hk0 : kid ≠ "")
    (hget : env.getKeyById kid = .ok (some rec))
    (hJ : env.jsonParseJWK rec.key = .ok jwk)
    (heddsa : jwkAlgIsEdDSA jwk = true)
    (himp : env.importJWK jwk = .ok kl)
    (hsplit : jsSplitDot jwt = [hseg, pseg, sseg])
    (hpub : firstUint8Array kl = some pub) :
    (validateToken env jwt secret).2 =
      [Event.edVerifyCall (bytesToHex (nodeBase64Decode sseg))
        (bytesToHex (utf8Bytes (hseg ++ "." ++ pseg))) (bytesToHex pub)] ∧
    (env.edVerify (bytesToHex (nodeBase64Decode sseg))
        (bytesToHex (utf8Bytes (hseg ++ "." ++ pseg))) (bytesToHex pub) = .ok false →
      (validateToken env jwt secret).1.verified = false ∧
      (validateToken env jwt secret).1.error =
        some "eddsa token verification failed") ∧
    (env.edVerify (bytesToHex (nodeBase64Decode sseg))
        (bytesToHex (utf8Bytes (hseg ++ "." ++ pseg))) (bytesToHex pub) = .ok true →
      (validateToken env jwt secret).1.verified = true) := by
  refine ⟨?_, ?_, ?_⟩
  · unfold validateToken validateTokenBody importJwkAndVerify
    rcases hV : env.edVerify (bytesToHex (nodeBase64Decode sseg))
        (bytesToHex (utf8Bytes (hseg ++ "." ++ pseg))) (bytesToHex pub) with e | b
    · simp [kidTruthy, jsTemplate, hH, hP, hA, hhs, hkid, hk0, hget, hJ, heddsa,
        himp, hsplit, hpub, hV]
    · by_cases hb : b = true <;>
        simp [kidTruthy, jsTemplate, hH, hP, hA, hhs, hkid, hk0, hget, hJ, heddsa,
          himp, hsplit, hpub, hV, hb]
  · intro hV
    unfold validateToken validateTokenBody importJwkAndVerify
    simp [kidTruthy, jsTemplate, eddsaVerificationFailed, hH, hP, hA, hhs, hkid,
      hk0, hget, hJ, heddsa, himp, hsplit, hpub, hV]
  · intro hV
    unfold validateToken validateTokenBody importJwkAndVerify
    simp [kidTruthy, jsTemplate, hH, hP, hA, hhs, hkid, hk0, hget, hJ, heddsa,
      himp, hsplit, hpub, hV]

/-- C4 witness: a concrete EdDSA token whose raw check passes (verified
true, with the exact hex arguments on the trace) and one whose raw check
fails (verified false with the fixed literal message). -/
theorem eddsa_raw_verify_witness :
    ((validateToken envEd "aA.bB.cc-_" none).2 =
      [Event.edVerifyCall (bytesToHex (nodeBase64Decode "cc-_"))
        (bytesToHex (utf8Bytes ("aA" ++ "." ++ "bB"))) (bytesToHex [1, 255])] ∧
      (validateToken envEd "aA.bB.cc-_" none).1.verified = true) ∧
    ((validateToken envEdFail "aA.bB.cc-_" none).1.verified = false ∧
      (validateToken envEdFail "aA.bB.cc-_" none).1.error =
        some "eddsa token verification failed") := by
  have h1 := eddsa_raw_verify envEd "aA.bB.cc-_" none ⟨some "EdDSA", some "kid1", []⟩
    ⟨none, []⟩ "EdDSA" "kid1" ⟨"stored-jwk-json"⟩ ⟨some "EdDSA", "okp-key-material"⟩
    ⟨[.other 0, .bytes [1, 255]]⟩ "aA" "bB" "cc-_" [1, 255]
    rfl rfl rfl (by decide) rfl (by decide) rfl rfl (by decide) rfl (by decide)
    (by decide)
  have h2 := eddsa_raw_verify envEdFail "aA.bB.cc-_" none ⟨some "EdDSA", some "kid1", []⟩
    ⟨none, []⟩ "EdDSA" "kid1" ⟨"stored-jwk-json"⟩ ⟨some "EdDSA", "okp-key-material"⟩
    ⟨[.other 0, .bytes [1, 255]]⟩ "aA" "bB" "cc-_" [1, 255]
    rfl rfl rfl (by decide) rfl (by decide) rfl rfl (by decide) rfl (by decide)
    (by decide)
  exact ⟨⟨h1.1, h1.2.2 rfl⟩, h2.2.1 rfl⟩

/-- C5 counterexample: the header declares EdDSA (case-insensitively equal
to eddsa), yet the generic jwtVerify routine runs and the raw EdDSA check
does not, because the dispatch at line 103 of tokens.ts tests the alg field
of the stored JWK (here RS256), not the declared algorithm of the header.
This refutes the claim that the EdDSA-versus-generic choice is made on the
declared algorithm of the header. -/
theorem dispatch_counterexample :
    envC5.decodeProtectedHeader "h.p.s" = .ok ⟨some "EdDSA", some "kid1", []⟩ ∧
    (jsToLower "EdDSA" == "eddsa") = true ∧
    (validateToken envC5 "h.p.s" none).2 =
      [Event.jwtVerifyCall "h.p.s" (.keyLike ⟨[.bytes [1, 2]]⟩)] := by
  exact ⟨rfl, by decide, by decide⟩

/-- C5 amended: the symmetric path is taken exactly when the declared
algorithm of the header starts with hs case-insensitively; the choice
between the EdDSA special case and the generic routine is made
case-insensitively on the alg field of the stored JWK, not on the header. -/
theorem dispatch_amended (env : Env) (jwt : String) (secret : Option String)
    (hdr : Header) (pl : Payload) (a : String)
    (hH : env.decodeProtectedHeader jwt = .ok hdr)
    (hP : env.decodeJwt jwt = .ok pl)
    (hA : hdr.alg = some a) :
    ((∃ bs, Event.jwtVerifyCall jwt (.secretBytes bs) ∈
        (validateToken env jwt secret).2) ↔
      jsStartsWith (jsToLower a) "hs" = true) ∧
    (∀ kid rec jwk kl,
      jsStartsWith (jsToLower a) "hs" = false →
      hdr.kid = some kid → kid ≠ "" →
      env.getKeyById kid = .ok (some rec) →
      env.jsonParseJWK rec.key = .ok jwk →
      env.importJWK jwk = .ok kl →
      ((Event.jwtVerifyCall jwt (.keyLike kl) ∈ (validateToken env jwt secret).2) ↔
        jwkAlgIsEdDSA jwk = false)) := by
  constructor
  · by_cases hhs : jsStartsWith (jsToLower a) "hs" = true
    · simp only [hhs, iff_true]
      refine ⟨textEncoderEncode secret, ?_⟩
      unfold validateToken validateTokenBody
      rcases hV : env.jwtVerify jwt (.secretBytes (textEncoderEncode secret))
          with err | u
      · by_cases hexp : err.isJWTExpired = true <;>
          simp [hH, hP, hA, hhs, hV, hexp]
      · simp [hH, hP, hA, hhs, hV]
    · refine iff_of_false ?_ hhs
      rintro ⟨bs, hmem⟩
      unfold validateToken validateTokenBody at hmem
      rcases hK : (if kidTruthy hdr.kid then env.getKeyById (hdr.kid.getD "")
          else .ok none) with e | keyOpt
      · simp [hH, hP, hA, hhs, hK] at hmem
      rcases keyOpt with _ | keyRec
      · simp [hH, hP, hA, hhs, hK] at hmem
      rcases hJ : env.jsonParseJWK keyRec.key with e | jwk
      · simp [hH, hP, hA, hhs, hK, hJ] at hmem
      have hshape := importJwkAndVerify_events_shape env jwt jwk
      rcases hIV : importJwkAndVerify env jwt jwk with ⟨res2, evs2⟩
      rw [hIV] at hshape
      simp only [] at hshape
      rcases res2 with e2 | u2 <;>
        simp [hH, hP, hA, hhs, hK, hJ, hIV] at hmem <;>
        rcases hshape with h | ⟨kl2, _, _, h⟩ | ⟨s2, m2, p2, h⟩ <;>
          rw [h] at hmem <;> simp at hmem
  · intro kid rec jwk kl hhs hkid hk0 hget hJ himp
    by_cases heddsa : jwkAlgIsEdDSA jwk = true
    · have hrhs : ¬(jwkAlgIsEdDSA jwk = false) := by simp [heddsa]
      refine iff_of_false ?_ hrhs
      intro hmem
      unfold validateToken validateTokenBody at hmem
      have hshape := importJwkAndVerify_events_shape env jwt jwk
      rcases hIV : importJwkAndVerify env jwt jwk with ⟨res2, evs2⟩
      rw [hIV] at hshape
      simp only [] at hshape
      rcases res2 with e2 | u2 <;>
        simp [kidTruthy, hH, hP, hA, hhs, hkid, hk0, hget, hJ, hIV] at hmem <;>
        rcases hshape with h | ⟨kl2, himp2, hed2, h⟩ | ⟨s2, m2, p2, h⟩ <;>
        first
          | (exact absurd hed2 (by simp [heddsa]))
          | (rw [h] at hmem; simp at hmem)
    · have heddsa2 : jwkAlgIsEdDSA jwk = false := by
        revert heddsa
        cases jwkAlgIsEdDSA jwk <;> simp
      simp only [heddsa2, iff_true]
      unfold validateToken validateTokenBody importJwkAndVerify
      rcases hV2 : env.jwtVerify jwt (.keyLike kl) with e | u <;>
        simp [kidTruthy, hH, hP, hA, hhs, hkid, hk0, hget, hJ, heddsa2, himp, hV2]

/-- C5 witness: on a concrete HS256 header the symmetric call appears on
the trace, and on a concrete header declaring EdDSA over a stored RS256 JWK
the generic call appears exactly because the JWK alg is not eddsa. -/
theorem dispatch_amended_witness :
    ((∃ bs, Event.jwtVerifyCall "h.p.s" (.secretBytes bs) ∈
        (validateToken envSym "h.p.s" (some "sec")).2) ↔
      jsStartsWith (jsToLower "HS256") "hs" = true) ∧
    ((Event.jwtVerifyCall "h.p.s" (.keyLike ⟨[.bytes [1, 2]]⟩) ∈
        (validateToken envC5 "h.p.s" none).2) ↔
      jwkAlgIsEdDSA ⟨some "RS256", "rsa-key-material"⟩ = false) := by
  refine ⟨(dispatch_amended envSym "h.p.s" (some "sec") ⟨some "HS256", none, []⟩
    ⟨some 10, []⟩ "HS256" rfl rfl rfl).1, ?_⟩
  exact (dispatch_amended envC5 "h.p.s" none ⟨some "EdDSA", some "kid1", []⟩
    ⟨none, []⟩ "EdDSA" rfl rfl rfl).2 "kid1" ⟨"stored-jwk-json"⟩
    ⟨some "RS256", "rsa-key-material"⟩ ⟨[.bytes [1, 2]]⟩
    (by decide) rfl (by decide) rfl rfl rfl

/-- C6: on a non-HMAC header whose kid is absent or unresolved by the Key
Store, validateToken returns verified false with an absent error field and
populated decoded content, and the diagnostic line is logged; the result is
returned, not thrown. -/
theorem no_key_found_result (env : Env) (jwt : String) (secret : Option String)
    (hdr : Header) (pl : Payload) (a : String)
    (hH : env.decodeProtectedHeader jwt = .ok hdr)
    (hP : env.decodeJwt jwt = .ok pl)
    (hA : hdr.alg = some a)
    (hhs : jsStartsWith (jsToLower a) "hs" = false)
    (hkid : hdr.kid = none ∨ ∃ k, hdr.kid = some k ∧ env.getKeyById k = .ok none) :
    (validateToken env jwt secret).1 =
      ⟨false, ⟨hdr, pl⟩, computeExpired env pl, none⟩ ∧
    Event.log "No key found" ∈ (validateToken env jwt secret).2 := by
  have hK : (if kidTruthy hdr.kid then env.getKeyById (hdr.kid.getD "")
      else .ok none) = Except.ok none := by
    rcases hkid with hk | ⟨k, hk, hg⟩
    · simp [hk, kidTruthy]
    · by_cases h0 : k = ""
      · simp [hk, h0, kidTruthy]
      · simp [hk, h0, kidTruthy, hg]
  constructor
  · unfold validateToken validateTokenBody
    simp [hH, hP, hA, hhs, hK]
  · unfold validateToken validateTokenBody
    simp [hH, hP, hA, hhs, hK]

/-- C6 witness: a concrete RS256 token whose kid misses the Key Store. -/
theorem no_key_found_witness :
    (validateToken envNoKey "h.p.s" none).1 =
      ⟨false, ⟨⟨some "RS256", some "missing", []⟩, ⟨some 10, []⟩⟩,
        computeExpired envNoKey ⟨some 10, []⟩, none⟩ ∧
    Event.log "No key found" ∈ (validateToken envNoKey "h.p.s" none).2 :=
  no_key_found_result envNoKey "h.p.s" none ⟨some "RS256", some "missing", []⟩
    ⟨some 10, []⟩ "RS256" rfl rfl rfl (by decide)
    (Or.inr ⟨"missing", rfl, rfl⟩)

/-- C7 counterexample: two refutations of the claim that the expired flag
is true exactly when exp is present and the current time is later.  First,
with exp present and equal to 0 and the clock far past the epoch, the
result still reports expired false (the truthiness test skips 0).  Second,
with a past nonzero exp but a throwing Key Store lookup, the outer handler
reports expired false as well. -/
theorem expired_claim_counterexample :
    (envC7.decodeJwt "h.p.s" = .ok ⟨some 0, []⟩ ∧
      envC7.nowMillis > 0 * 1000 ∧
      (validateToken envC7 "h.p.s" (some "sec")).1.expired = false) ∧
    (envC7b.decodeJwt "h.p.s" = .ok ⟨some 99, []⟩ ∧
      envC7b.nowMillis > 99 * 1000 ∧
      (validateToken envC7b "h.p.s" (some "sec")).1.expired = false) := by
  exact ⟨⟨rfl, by decide, by decide⟩, ⟨rfl, by decide, by decide⟩⟩

/-- C7 amended: whenever payload decoding succeeds and no exception reaches
the outer boundary, the expired flag of the result is true exactly when exp
is present, nonzero, and its second-scaled value lies strictly before the
current time. -/
theorem expired_iff_truthy_exp_in_past (env : Env) (jwt : String)
    (secret : Option String) (pl : Payload) (r : ValidationResult)
    (hP : env.decodeJwt jwt = .ok pl)
    (hok : (validateTokenBody env jwt secret).1 = .ok r) :
    (validateToken env jwt secret).1.expired = true ↔
      ∃ e, pl.exp = some e ∧ e ≠ 0 ∧ env.nowMillis > e * 1000 := by
  rcases validateTokenBody_spec env jwt secret with ⟨e, hB⟩ |
    ⟨r2, evs, hdr, pl2, a, hB, hH, hP2, hA, hdec, hexp, herr⟩
  · rw [hB] at hok
    exact absurd hok (by simp)
  · rw [hP] at hP2
    injection hP2 with hpl
    subst hpl
    unfold validateToken
    rw [hB]
    simp only []
    rw [hexp]
    exact computeExpired_eq_true_iff env pl

/-- C7 witness: a concrete expired symmetric token where the amended
equivalence is instantiated. -/
theorem expired_iff_witness :
    (validateToken envSym "h.p.s" (some "sec")).1.expired = true ↔
      ∃ e, (⟨some 10, []⟩ : Payload).exp = some e ∧ e ≠ 0 ∧
        envSym.nowMillis > e * 1000 :=
  expired_iff_truthy_exp_in_past envSym "h.p.s" (some "sec") ⟨some 10, []⟩
    ⟨true, ⟨⟨some "HS256", none, []⟩, ⟨some 10, []⟩⟩, true, none⟩ rfl rfl

/-- C8: validateToken reads no hidden state: two calls with the same token
and secret against environments that agree pointwise on every collaborator
(same clock, same Key Store answers, same verifier answers) return
identical results and traces. -/
theorem validateToken_no_hidden_state (env1 env2 : Env) (jwt : String)
    (secret : Option String)
    (h1 : ∀ s, env1.decodeProtectedHeader s = env2.decodeProtectedHeader s)
    (h2 : ∀ s, env1.decodeJwt s = env2.decodeJwt s)
    (h3 : env1.nowMillis = env2.nowMillis)
    (h4 : ∀ s k, env1.jwtVerify s k = env2.jwtVerify s k)
    (h5 : ∀ k, env1.getKeyById k = env2.getKeyById k)
    (h6 : ∀ s, env1.jsonParseJWK s = env2.jsonParseJWK s)
    (h7 : ∀ j, env1.importJWK j = env2.importJWK j)
    (h8 : ∀ a b c, env1.edVerify a b c = env2.edVerify a b c) :
    validateToken env1 jwt secret = validateToken env2 jwt secret := by
  have henv : env1 = env2 := by
    cases env1
    cases env2
    simp only [Env.mk.injEq]
    exact ⟨funext h1, funext h2, h3, funext fun s => funext (h4 s), funext h5,
      funext h6, funext h7, funext fun a => funext fun b => funext (h8 a b)⟩
  rw [henv]

/-- C8 witness: the determinism theorem applied to one concrete
environment against itself. -/
theorem no_hidden_state_witness :
    validateToken envSym "h.p.s" none = validateToken envSym "h.p.s" none :=
  validateToken_no_hidden_state envSym envSym "h.p.s" none (fun _ => rfl)
    (fun _ => rfl) rfl (fun _ _ => rfl) (fun _ => rfl) (fun _ => rfl) (fun _ => rfl)
    (fun _ _ _ => rfl)

/-- C9: a decoded payload whose exp claim equals 0 (falsy in JavaScript) is
treated like an absent exp: the result reports expired false on every
path, even though epoch time 0 lies in the past. -/
theorem falsy_exp_gives_not_expired (env : Env) (jwt : String)
    (secret : Option String) (pl : Payload)
    (hP : env.decodeJwt jwt = .ok pl) (h0 : pl.exp = some 0) :
    (validateToken env jwt secret).1.expired = false := by
  rcases validateTokenBody_spec env jwt secret with ⟨e, hB⟩ |
    ⟨r, evs, hdr, pl2, a, hB, hH, hP2, hA, hdec, hexp, herr⟩
  · unfold validateToken
    rw [hB]
  · rw [hP] at hP2
    injection hP2 with hpl
    subst hpl
    unfold validateToken
    rw [hB]
    simp only []
    rw [hexp]
    unfold computeExpired
    rw [h0]
    simp

/-- C9 witness: exp equal to 0 with the clock far past the epoch still
yields expired false. -/
theorem falsy_exp_witness :
    (validateToken envC7 "h.p.s" (some "sec")).1.expired = false :=
  falsy_exp_gives_not_expired envC7 "h.p.s" (some "sec") ⟨some 0, []⟩ rfl rfl

/-- C10: the error field is absent exactly when the result is verified or
the no-key branch ran (observable as the logged diagnostic); moreover every
failure of the generic asymmetric path carries the underlying library
message, because the rejection of the un-awaited verification promise is
caught by the handler of the caller rather than the inner swallow branch. -/
theorem error_absent_iff_verified_or_key_miss (env : Env) (jwt : String)
    (secret : Option String) :
    ((validateToken env jwt secret).1.error = none ↔
      ((validateToken env jwt secret).1.verified = true ∨
        Event.log "No key found" ∈ (validateToken env jwt secret).2)) ∧
    (∀ hdr pl a kid rec jwk kl err,
      env.decodeProtectedHeader jwt = .ok hdr →
      env.decodeJwt jwt = .ok pl →
      hdr.alg = some a →
      jsStartsWith (jsToLower a) "hs" = false →
      hdr.kid = some kid → kid ≠ "" →
      env.getKeyById kid = .ok (some rec) →
      env.jsonParseJWK rec.key = .ok jwk →
      jwkAlgIsEdDSA jwk = false →
      env.importJWK jwk = .ok kl →
      env.jwtVerify jwt (.keyLike kl) = .error err →
      (validateToken env jwt secret).1.error = some err.message ∧
      (validateToken env jwt secret).1.verified = false) := by
  constructor
  · rcases validateTokenBody_spec env jwt secret with ⟨e, hB⟩ |
      ⟨r, evs, hdr, pl, a, hB, hH, hP, hA, hdec, hexp, herr⟩
    · unfold validateToken
      rw [hB]
      simp
    · unfold validateToken
      rw [hB]
      exact herr
  · intro hdr pl a kid rec jwk kl err hH hP hA hhs hkid hk0 hget hJ heddsa himp hV
    unfold validateToken validateTokenBody importJwkAndVerify
    simp [kidTruthy, hH, hP, hA, hhs, hkid, hk0, hget, hJ, heddsa, himp, hV]

/-- C10 witness: a concrete generic-path signature failure where the
equivalence and the propagated library message are instantiated. -/
theorem error_absent_iff_witness :
    ((validateToken envAsymFail "h.p.s" none).1.error = none ↔
      ((validateToken envAsymFail "h.p.s" none).1.verified = true ∨
        Event.log "No key found" ∈ (validateToken envAsymFail "h.p.s" none).2)) ∧
    ((validateToken envAsymFail "h.p.s" none).1.error =
        some "signature verification failed" ∧
      (validateToken envAsymFail "h.p.s" none).1.verified = false) := by
  refine ⟨(error_absent_iff_verified_or_key_miss envAsymFail "h.p.s" none).1, ?_⟩
  have h := (error_absent_iff_verified_or_key_miss envAsymFail "h.p.s" none).2
    ⟨some "RS256", some "kid1", []⟩ ⟨some 10, []⟩ "RS256" "kid1" ⟨"stored-jwk-json"⟩
    ⟨some "RS256", "rsa-key-material"⟩ ⟨[.other 0]⟩
    ⟨"signature verification failed", false⟩
    rfl rfl rfl (by decide) rfl (by decide) rfl rfl (by decide) rfl rfl
  exact ⟨h.1, h.2⟩

end Jwtis
